import Mathlib

/-!
Shallow embedding of `deploy/deploy_vm.py` (Windows Server VM deployment script)
and proofs about its specification claims.

The embedding models:
* the configuration tree, as a structure mirroring exactly the YAML keys the
  script reads (`config['vm'][...]` and `config['windows'][...]`); keys the
  script reads with plain indexing (`[...]`, raising `KeyError` when absent)
  and for which no default exists are modeled as `Option` fields, while keys
  read with `.get(key, default)` are `Option` fields consumed through `getD`;
* `check_dependencies`, `create_disk_image`, `generate_autounattend_xml`,
  `generate_setup_script`, the floppy-staging section of `create_config_iso`,
  and the NAT network-planning section of `start_vm`.

A Python `KeyError` on a required configuration key is modeled as
`ConfigError.missingKey` (the spec's `ConfigError` taxonomy entry for a
missing required key). External tools (`qemu-img`, `dd`, `mkfs.vfat`,
`mount`, `cp`, `umount`, `mkisofs`) are collaborators whose behavior the spec
assumes correct; where a claim depends on their success or failure the
outcome is an explicit Boolean parameter of the embedding.
-/

namespace DeployVm

/-- One entry of `config['windows']['users']`. `username` and `password` are read
with plain indexing on every user dict and are modeled as always present;
`group` and `description` are read with `.get` and carry defaults at use sites. -/
structure User where
  username : String
  password : String
  group : Option String := none
  description : Option String := none
  deriving DecidableEq, Repr

/-- The `config['vm']['rdp']` block; both keys are read with `.get` defaults
(`enabled` defaults to `False`, `host_port` to `3389`). -/
structure Rdp where
  enabled : Option Bool := none
  host_port : Option Nat := none
  deriving DecidableEq, Repr

/-- One entry of `config['vm']['port_forwards']`. -/
structure PortForward where
  host : Nat
  guest : Nat
  deriving DecidableEq, Repr

/-- The `config['windows']['web_project']` block. `source_folder` and `name` are
read with plain indexing and have no default, hence `Option` (missing key =
`KeyError`). -/
structure WebProject where
  source_folder : Option String := none
  name : Option String := none
  deriving DecidableEq, Repr

/-- The `config['windows']` section. `users` and `web_project` are read with
plain indexing (required, no default); the rest are read with `.get` defaults. -/
structure WindowsCfg where
  windows_edition : Option String := none
  users : Option (List User) := none
  administrator_password : Option String := none
  computer_name : Option String := none
  web_project : Option WebProject := none
  deriving DecidableEq, Repr

/-- The `config['vm']` section. `name`, `work_dir`, `disk_size`, `memory`,
`cpus` and `iso_path` are read with plain indexing; the claims under study
never exercise their absence, so they are modeled as plain fields. The
remaining keys are read with `.get` defaults and are `Option` fields. -/
structure VmCfg where
  name : String
  work_dir : String
  disk_size : String := "60G"
  memory : String := "4G"
  cpus : Nat := 2
  iso_path : String := ""
  virtio_iso_path : Option String := none
  vnc_port : Option Nat := none
  network_mode : Option String := none
  bridge_interface : Option String := none
  port_forwards : Option (List PortForward) := none
  rdp : Option Rdp := none
  deriving DecidableEq, Repr

/-- The whole configuration tree loaded by `__init__` from the YAML file. -/
structure Config where
  vm : VmCfg
  windows : WindowsCfg
  deriving DecidableEq, Repr

/-- The spec's `ConfigError`: a required configuration key with no default is
absent (a Python `KeyError` naming the key). -/
inductive ConfigError where
  | missingKey (key : String)
  deriving DecidableEq, Repr

/-- `true` iff a rendering step completed without a `ConfigError`. -/
def renderOk {α : Type} (e : Except ConfigError α) : Bool :=
  match e with
  | Except.ok _ => true
  | Except.error _ => false

/-! ## Dependency Checker (`check_dependencies`, lines 91-122) -/

/-- The fixed list of required external commands. -/
def required_commands : List String := ["qemu-system-x86_64", "qemu-img", "mkisofs"]

/-- The fatal report printed when dependencies are missing: the full list of
missing command names (joined into one message) and the process exit code. -/
structure DependencyFailure where
  missing : List String
  exitCode : Nat
  deriving DecidableEq, Repr

/-- `check_dependencies`: probe each required command on the path (`which` is
the availability oracle for `shutil.which`), collect every missing one, and
fail once with the whole list (exit code 1) when any is missing. -/
def check_dependencies (which : String → Bool) : Except DependencyFailure Unit :=
  let missing := required_commands.filter (fun cmd => !(which cmd))
  if missing.isEmpty then Except.ok ()
  else Except.error { missing := missing, exitCode := 1 }

/-! ## Disk Provisioner (`create_disk_image`, lines 124-163) -/

/-- The derived disk path `work_dir / f"{vm_name}.qcow2"`. -/
def diskPath (c : Config) : String :=
  c.vm.work_dir ++ "/" ++ c.vm.name ++ ".qcow2"

/-- `create_disk_image` over an explicit file-system state `fs` (the set of
existing paths). Returns the new state, the returned disk path, and the number
of `qemu-img create` invocations performed. If the disk already exists it is
returned unchanged with no tool invocation (and no re-validation of size or
format — the existing-file branch inspects nothing but existence); otherwise
`qemu-img create` runs once and, being assumed correct (spec section 1), it
creates the file. -/
def create_disk_image (fs : List String) (c : Config) : List String × String × Nat :=
  let disk_path := diskPath c
  if disk_path ∈ fs then (fs, disk_path, 0)
  else (disk_path :: fs, disk_path, 1)

/-! ## Template Renderer: answer file (`generate_autounattend_xml`, lines 165-386) -/

/-- The `edition_mapping` dict from short edition keys to installer image names. -/
def edition_mapping : List (String × String) :=
  [("standard", "Windows Server 2022 SERVERSTANDARD"),
   ("core", "Windows Server 2022 SERVERSTANDARDCORE"),
   ("datacenter", "Windows Server 2022 SERVERDATACENTER"),
   ("datacenter-core", "Windows Server 2022 SERVERDATACENTERCORE")]

/-- Python `dict.get(k, d)` over an association list. -/
def dictGetD (m : List (String × String)) (k d : String) : String :=
  match m.find? (fun p => p.1 == k) with
  | some p => p.2
  | none => d

/-- The installer image name selected from the (optional) edition key:
`edition_mapping.get(config['windows'].get('windows_edition', 'standard'),
'Windows Server 2022 SERVERSTANDARD')`. -/
def imageNameOf (windows_edition : Option String) : String :=
  dictGetD edition_mapping (windows_edition.getD "standard")
    "Windows Server 2022 SERVERSTANDARD"
/-- The per-user LocalAccount XML fragment appended to `users_xml` for each configured
user, translated from the f-string in `generate_autounattend_xml`. -/
def localAccountXml (u : User) : String :=
  "
            <LocalAccount wcm:action=\"add\">
                <Password>
                    <Value>" ++ u.password ++ "</Value>
                    <PlainText>true</PlainText>  <!-- Heslo v plain textu (pro automatizaci) -->
                </Password>
                <Description>" ++ u.description.getD "" ++ "</Description>  <!-- Popis účtu -->
                <DisplayName>" ++ u.username ++ "</DisplayName>  <!-- Zobrazované jméno -->
                <Group>" ++ u.group.getD "Users" ++ "</Group>  <!-- Skupina (Users/Administrators) -->
                <Name>" ++ u.username ++ "</Name>  <!-- Přihlašovací jméno -->
            </LocalAccount>"

/-- The full Autounattend.xml template of `generate_autounattend_xml`, with the four
interpolated configuration values as parameters. -/
def autounattendXmlTemplate (image_name administrator_password computer_name users_xml : String) : String :=
  "<?xml version=\"1.0\" encoding=\"utf-8\"?>
<unattend xmlns=\"urn:schemas-microsoft-com:unattend\">
    
    <!-- ============================================================ -->
    <!-- PASS 1: windowsPE - Instalace Windows (před instalací OS) -->
    <!-- ============================================================ -->
    <settings pass=\"windowsPE\">
        
        <!-- Nastavení jazyka a regionu -->
        <component name=\"Microsoft-Windows-International-Core-WinPE\" processorArchitecture=\"amd64\" publicKeyToken=\"31bf3856ad364e35\" language=\"neutral\" versionScope=\"nonSxS\" xmlns:wcm=\"http://schemas.microsoft.com/WMIConfig/2002/State\" xmlns:xsi=\"http://www.w3.org/2001/XMLSchema-instance\">
            <SetupUILanguage>
                <UILanguage>en-US</UILanguage>  <!-- Jazyk instalačního rozhraní -->
            </SetupUILanguage>
            <InputLocale>en-US</InputLocale>     <!-- Rozložení klávesnice -->
            <SystemLocale>en-US</SystemLocale>   <!-- Systémový jazyk -->
            <UILanguage>en-US</UILanguage>       <!-- Jazyk uživatelského rozhraní -->
            <UserLocale>en-US</UserLocale>       <!-- Formát data, času, měny -->
        </component>
        
        <!-- Automatické načtení VirtIO ovladačů během instalace -->
        <!-- Bez těchto ovladačů by Windows neviděl virtio disk a síťovou kartu -->
        <component name=\"Microsoft-Windows-PnpCustomizationsWinPE\" processorArchitecture=\"amd64\" publicKeyToken=\"31bf3856ad364e35\" language=\"neutral\" versionScope=\"nonSxS\" xmlns:wcm=\"http://schemas.microsoft.com/WMIConfig/2002/State\" xmlns:xsi=\"http://www.w3.org/2001/XMLSchema-instance\">
            <DriverPaths>
                <!-- Ovladač pro virtio storage (disk) - Windows musí vidět virtuální disk -->
                <PathAndCredentials wcm:action=\"add\" wcm:keyValue=\"1\">
                    <Path>D:\\viostor\\2k22\\amd64</Path>  <!-- D: = virtio-win.iso -->
                </PathAndCredentials>
                <!-- Ovladač pro virtio network (síť) - pro síťovou komunikaci -->
                <PathAndCredentials wcm:action=\"add\" wcm:keyValue=\"2\">
                    <Path>D:\\NetKVM\\2k22\\amd64</Path>
                </PathAndCredentials>
            </DriverPaths>
        </component>
        
        <!-- Hlavní instalace Windows - disk konfigurace a výběr edice -->
        <component name=\"Microsoft-Windows-Setup\" processorArchitecture=\"amd64\" publicKeyToken=\"31bf3856ad364e35\" language=\"neutral\" versionScope=\"nonSxS\" xmlns:wcm=\"http://schemas.microsoft.com/WMIConfig/2002/State\" xmlns:xsi=\"http://www.w3.org/2001/XMLSchema-instance\">
            
            <!-- Konfigurace disku - vytvoření a formátování partitionů -->
            <DiskConfiguration>
                <Disk wcm:action=\"add\">
                    <DiskID>0</DiskID>                    <!-- První disk (virtuální disk VM) -->
                    <WillWipeDisk>true</WillWipeDisk>     <!-- Smazat všechna stávající data -->
                    <CreatePartitions>
                        <!-- Vytvoření jedné velké partition pro Windows -->
                        <CreatePartition wcm:action=\"add\">
                            <Order>1</Order>              <!-- První (a jediná) partition -->
                            <Type>Primary</Type>          <!-- Primární partition (bootovací) -->
                            <Extend>true</Extend>         <!-- Použít celou dostupnou kapacitu -->
                        </CreatePartition>
                    </CreatePartitions>
                    <ModifyPartitions>
                        <!-- Formátování a označení partition -->
                        <ModifyPartition wcm:action=\"add\">
                            <Active>true</Active>          <!-- Nastavení jako aktivní (bootovací) -->
                            <Format>NTFS</Format>          <!-- Souborový systém NTFS -->
                            <Label>Windows</Label>         <!-- Název svazku -->
                            <Order>1</Order>
                            <PartitionID>1</PartitionID>
                        </ModifyPartition>
                    </ModifyPartitions>
                </Disk>
            </DiskConfiguration>
            
            <!-- Výběr edice Windows k instalaci -->
            <ImageInstall>
                <OSImage>
                    <InstallFrom>
                        <!-- Specifikace přesného názvu obrazu z install.wim -->
                        <MetaData wcm:action=\"add\">
                            <Key>/IMAGE/NAME</Key>
                            <Value>" ++ image_name ++ "</Value>  <!-- Např. \"Windows Server 2022 SERVERSTANDARD\" -->
                        </MetaData>
                    </InstallFrom>
                    <InstallTo>
                        <DiskID>0</DiskID>              <!-- Instalovat na disk 0 -->
                        <PartitionID>1</PartitionID>    <!-- Na partition 1 -->
                    </InstallTo>
                </OSImage>
            </ImageInstall>
            
            <!-- Základní uživatelské údaje pro instalaci -->
            <UserData>
                <AcceptEula>true</AcceptEula>      <!-- Automatické přijetí licenčních podmínek -->
                <FullName>Administrator</FullName>  <!-- Celé jméno uživatele -->
                <Organization>Organization</Organization>  <!-- Název organizace -->
            </UserData>
        </component>
    </settings>
    
    <!-- ============================================================ -->
    <!-- PASS 2: specialize - Konfigurace systému (během instalace) -->
    <!-- ============================================================ -->
    <settings pass=\"specialize\">
        <component name=\"Microsoft-Windows-Shell-Setup\" processorArchitecture=\"amd64\" publicKeyToken=\"31bf3856ad364e35\" language=\"neutral\" versionScope=\"nonSxS\" xmlns:wcm=\"http://schemas.microsoft.com/WMIConfig/2002/State\" xmlns:xsi=\"http://www.w3.org/2001/XMLSchema-instance\">
            <!-- Nastavení jména počítače (hostname) -->
            <ComputerName>" ++ computer_name ++ "</ComputerName>
        </component>
    </settings>
    
    <!-- ============================================================ -->
    <!-- PASS 3: oobeSystem - Po instalaci (OOBE = Out-Of-Box Experience) -->
    <!-- ============================================================ -->
    <settings pass=\"oobeSystem\">
        <component name=\"Microsoft-Windows-Shell-Setup\" processorArchitecture=\"amd64\" publicKeyToken=\"31bf3856ad364e35\" language=\"neutral\" versionScope=\"nonSxS\" xmlns:wcm=\"http://schemas.microsoft.com/WMIConfig/2002/State\" xmlns:xsi=\"http://www.w3.org/2001/XMLSchema-instance\">
            
            <!-- Automatické přihlášení Administratorů po instalaci -->
            <!-- Umožní spustit setup skripty bez manuálního přihlášení -->
            <AutoLogon>
                <Password>
                    <Value>" ++ administrator_password ++ "</Value>
                    <PlainText>true</PlainText>
                </Password>
                <Enabled>true</Enabled>                <!-- Povolit automatické přihlášení -->
                <Username>Administrator</Username>     <!-- Přihlásit jako Administrator -->
            </AutoLogon>
            
            <!-- Nastavení OOBE (původní konfigurace Windows) -->
            <!-- Skrytí všech dialogů pro plně automatickou instalaci -->
            <OOBE>
                <HideEULAPage>true</HideEULAPage>                      <!-- Skrýt licenční podmínky -->
                <HideLocalAccountScreen>true</HideLocalAccountScreen>  <!-- Skrýt vytváření účtu -->
                <HideOnlineAccountScreens>true</HideOnlineAccountScreens>  <!-- Bez Microsoft účtu -->
                <HideWirelessSetupInOOBE>true</HideWirelessSetupInOOBE>  <!-- Bez WiFi nastavení -->
                <ProtectYourPC>3</ProtectYourPC>  <!-- Zakázat Windows Defender (3=disable) -->
            </OOBE>
            
            <!-- Konfigurace uživatelských účtů -->
            <UserAccounts>
                <!-- Heslo pro vestavěný Administrator účet -->
                <AdministratorPassword>
                    <Value>" ++ administrator_password ++ "</Value>
                    <PlainText>true</PlainText>
                </AdministratorPassword>
                <!-- Přidání lokálních uživatelských účtů z konfigurace -->
                <LocalAccounts>" ++ users_xml ++ "
                </LocalAccounts>
            </UserAccounts>
            
            <!-- Příkazy ke spuštění při prvním přihlášení -->
            <!-- Tyto příkazy se spustí AUTOMATICKY po prvním bootu Windows -->
            <FirstLogonCommands>
                <SynchronousCommand wcm:action=\"add\">
                    <Order>1</Order>  <!-- Pořadí spuštění (může být více příkazů) -->
                    <!-- Spuštění PowerShell setup skriptu z config ISO (F:) -->
                    <!-- ExecutionPolicy Bypass povolí spuštění nepodepsaných skriptů -->
                    <CommandLine>powershell -ExecutionPolicy Bypass -File F:\\setup.ps1</CommandLine>
                    <Description>Run setup script</Description>
                </SynchronousCommand>
            </FirstLogonCommands>
        </component>
    </settings>
</unattend>"

/-- The `users_xml` accumulation loop: starts from the empty string and appends
one `localAccountXml` fragment per configured user, in configuration order. -/
def usersXml (users : List User) : String :=
  users.foldl (fun acc u => acc ++ localAccountXml u) ""

/-- The body of `generate_autounattend_xml`, which reads only the
`config['windows']` section: resolve the edition key to an image name (silent
fallback to the standard edition), require `users` (plain indexing, no
default), default the administrator password and computer name, and substitute
everything into the fixed template. -/
def autounattendOfWindows (w : WindowsCfg) : Except ConfigError String :=
  match w.users with
  | none => Except.error (ConfigError.missingKey "users")
  | some users =>
      Except.ok (autounattendXmlTemplate
        (imageNameOf w.windows_edition)
        (w.administrator_password.getD "Admin123!")
        (w.computer_name.getD "WIN-SERVER")
        (usersXml users))

/-- `generate_autounattend_xml`: renders the answer file from the configuration. -/
def generate_autounattend_xml (c : Config) : Except ConfigError String :=
  autounattendOfWindows c.windows

/-! ## Template Renderer: setup script (`generate_setup_script`, lines 388-532)

The setup script is modeled as its sequence of PowerShell statements in source
order. `Write-Host` echo lines, which configure nothing, are omitted; every
state-changing statement of the rendered script appears as one constructor
application, with the claim-relevant arguments (registry value name, firewall
display name and port, group and member names) carried explicitly. -/

/-- One state-changing statement of the rendered `setup.ps1`. -/
inductive PSStmt where
  | startTranscript (path : String)
  | installWindowsFeature (feature : String) (includeManagementTools : Bool)
  | newNetFirewallRule (displayName : String) (port : Nat)
  | setItemProperty (path : String) (prop : String) (value : Nat)
  | enableNetFirewallRuleGroup (displayGroup : String)
  | copyWebFilesIfPresent
  | iisreset
  | addLocalGroupMember (group : String) (member : String)
  | getLocalUsers
  | stopTranscript
  | removeAutoAdminLogon
  deriving DecidableEq, Repr

/-- `rdp_config = self.config['vm'].get('rdp', {})` (used identically in
`generate_setup_script` and `start_vm`). -/
def rdp_config (c : Config) : Rdp :=
  c.vm.rdp.getD { enabled := none, host_port := none }

/-- `rdp_config.get('enabled', False)`. -/
def rdpEnabled (c : Config) : Bool :=
  (rdp_config c).enabled.getD false

/-- `rdp_config.get('host_port', 3389)` (read in `start_vm` for NAT forwarding). -/
def rdpHostPort (c : Config) : Nat :=
  (rdp_config c).host_port.getD 3389

/-- The fixed opening block of `setup.ps1`: transcript, IIS installation, and
the two fixed web-server firewall rules (ports 80 and 443). -/
def setupBaseBlock : List PSStmt :=
  [PSStmt.startTranscript "C:\\setup_log.txt",
   PSStmt.installWindowsFeature "Web-Server" true,
   PSStmt.installWindowsFeature "Web-Mgmt-Console" false,
   PSStmt.newNetFirewallRule "Allow HTTP" 80,
   PSStmt.newNetFirewallRule "Allow HTTPS" 443]

/-- The conditional remote-desktop block, appended iff
`config['vm'].get('rdp', {}).get('enabled', False)`: registry mutation,
firewall-group enablement, and an explicit firewall rule on the fixed port
3389 (the port literal in the template is not read from the configuration). -/
def setupRdpBlock (c : Config) : List PSStmt :=
  if rdpEnabled c then
    [PSStmt.setItemProperty "HKLM:\\System\\CurrentControlSet\\Control\\Terminal Server"
       "fDenyTSConnections" 0,
     PSStmt.enableNetFirewallRuleGroup "Remote Desktop",
     PSStmt.newNetFirewallRule "Allow RDP" 3389]
  else []

/-- The web-deployment block: conditional copy from the attached media, then an
IIS restart. -/
def setupWebBlock : List PSStmt :=
  [PSStmt.copyWebFilesIfPresent, PSStmt.iisreset]

/-- One `Add-LocalGroupMember` line per configured user whose group equals
`'Administrators'` (defaulting the group to `'Users'`), in configuration order. -/
def setupAdminBlock (users : List User) : List PSStmt :=
  (users.filter (fun u => u.group.getD "Users" == "Administrators")).map
    (fun u => PSStmt.addLocalGroupMember "Administrators" u.username)

/-- The fixed closing block: disable IE Enhanced Security Configuration for
both registry branches, print the local-account summary, stop the transcript,
and remove the auto-login registry value. -/
def setupTailBlock : List PSStmt :=
  [PSStmt.setItemProperty
     "HKLM:\\SOFTWARE\\Microsoft\\Active Setup\\Installed Components\\\x7bA509B1A7-37EF-4b3f-8CFC-4F3A74704073\x7d"
     "IsInstalled" 0,
   PSStmt.setItemProperty
     "HKLM:\\SOFTWARE\\Microsoft\\Active Setup\\Installed Components\\\x7bA509B1A8-37EF-4b3f-8CFC-4F3A74704073\x7d"
     "IsInstalled" 0,
   PSStmt.getLocalUsers,
   PSStmt.stopTranscript,
   PSStmt.removeAutoAdminLogon]

/-- The statement sequence of the rendered setup script for a given user list. -/
def setupStmts (c : Config) (users : List User) : List PSStmt :=
  setupBaseBlock ++ setupRdpBlock c ++ setupWebBlock ++ setupAdminBlock users ++ setupTailBlock

/-- `web_source = self.config['windows']['web_project']['source_folder']`: the
first statement of `generate_setup_script`; plain indexing with no default at
either level, so the absent key raises (the value itself is not interpolated
into the script text). -/
def sourceFolder? (c : Config) : Except ConfigError String :=
  match c.windows.web_project with
  | none => Except.error (ConfigError.missingKey "web_project")
  | some wp =>
      match wp.source_folder with
      | none => Except.error (ConfigError.missingKey "source_folder")
      | some s => Except.ok s

/-- `generate_setup_script`: reads `source_folder` first (line 411), then
iterates `config['windows']['users']` (line 486) while assembling the
statement sequence. -/
def generate_setup_script (c : Config) : Except ConfigError (List PSStmt) :=
  match sourceFolder? c with
  | Except.error e => Except.error e
  | Except.ok _ =>
      match c.windows.users with
      | none => Except.error (ConfigError.missingKey "users")
      | some users => Except.ok (setupStmts c users)

/-- The rendered statement list (empty on a rendering error), for counting. -/
def scriptStmts (c : Config) : List PSStmt :=
  match generate_setup_script c with
  | Except.ok stmts => stmts
  | Except.error _ => []

/-- `true` on the statements of the remote-desktop block: the
`fDenyTSConnections` registry mutation, the `Remote Desktop` firewall-group
enablement, and the `Allow RDP` firewall rule. -/
def isRdpEnablingStmt : PSStmt → Bool
  | PSStmt.setItemProperty _ prop _ => prop == "fDenyTSConnections"
  | PSStmt.enableNetFirewallRuleGroup g => g == "Remote Desktop"
  | PSStmt.newNetFirewallRule dn _ => dn == "Allow RDP"
  | _ => false

/-- `true` on `New-NetFirewallRule` statements opening the given local port. -/
def isFirewallRuleOn (port : Nat) : PSStmt → Bool
  | PSStmt.newNetFirewallRule _ p => p == port
  | _ => false

/-! ## Media Assembler: floppy staging of `create_config_iso` (lines 586-607)

The inner mount/copy/umount block and its `finally` clause are modeled as the
trace of commands they execute. Each external command either succeeds
(`run`) or exits non-zero (`fail`, which under `check=True` raises and jumps
to the `finally` clause). The `finally` clause removes the mount-point
directory and the floppy staging directory; any pending exception is then
surfaced (the returned `Option FloppyStep` names the failed step). -/

/-- The three external commands of the floppy mount block, in source order. -/
inductive FloppyStep where
  | mount
  | copy
  | umount
  deriving DecidableEq, Repr

/-- An event of the floppy staging trace. -/
inductive FloppyEvent where
  | run (s : FloppyStep)
  | fail (s : FloppyStep)
  | rmtreeMountPoint
  | rmtreeFloppyDir
  deriving DecidableEq, Repr

/-- The trace of the `try`/`finally` block at lines 590-607 of
`create_config_iso`, given which of the three commands would succeed: the
`try` body runs `sudo mount`, `sudo cp`, `sudo umount` in order, stopping at
the first failure; the `finally` clause always runs both `shutil.rmtree`
calls; the failed step (if any) is surfaced afterwards as the fatal error. -/
def floppySection (mountOk copyOk umountOk : Bool) : List FloppyEvent × Option FloppyStep :=
  let body :=
    if mountOk = false then
      ([FloppyEvent.fail FloppyStep.mount], some FloppyStep.mount)
    else if copyOk = false then
      ([FloppyEvent.run FloppyStep.mount, FloppyEvent.fail FloppyStep.copy],
       some FloppyStep.copy)
    else if umountOk = false then
      ([FloppyEvent.run FloppyStep.mount, FloppyEvent.run FloppyStep.copy,
        FloppyEvent.fail FloppyStep.umount], some FloppyStep.umount)
    else
      ([FloppyEvent.run FloppyStep.mount, FloppyEvent.run FloppyStep.copy,
        FloppyEvent.run FloppyStep.umount], none)
  (body.1 ++ [FloppyEvent.rmtreeMountPoint, FloppyEvent.rmtreeFloppyDir], body.2)

/-! ## Launch Planner: NAT network planning of `start_vm` (lines 767-783) -/

/-- The entry appended to the port-forward list when remote desktop is enabled:
`{'host': rdp_config.get('host_port', 3389), 'guest': 3389}`. -/
def rdpForwards (c : Config) : List PortForward :=
  if rdpEnabled c then [{ host := rdpHostPort c, guest := 3389 }] else []

/-- The NAT branch of `start_vm`:
`port_forwards = self.config['vm'].get('port_forwards', [{'host': 8080, 'guest': 80}])`
followed by `port_forwards.append(...)` when remote desktop is enabled.
Because `dict.get` returns the very list object stored in the configuration,
the `append` mutates the configuration's own table whenever the key is
present; the returned pair is (configuration after the step, forwarding
rules used for the `hostfwd` clause). -/
def startVmNatPlan (c : Config) : Config × List PortForward :=
  let port_forwards := (c.vm.port_forwards.getD [{ host := 8080, guest := 80 }]) ++ rdpForwards c
  match c.vm.port_forwards with
  | some _ =>
      ({ c with vm := { c.vm with port_forwards := some port_forwards } }, port_forwards)
  | none => (c, port_forwards)

/-- One `hostfwd` clause element: `f"hostfwd=tcp::{pf['host']}-:{pf['guest']}"`. -/
def hostfwd (pf : PortForward) : String :=
  "hostfwd=tcp::" ++ toString pf.host ++ "-:" ++ toString pf.guest

/-- `hostfwd_rules = ','.join(...)` over the planned forwarding rules. -/
def hostfwdRules (c : Config) : String :=
  String.intercalate "," ((startVmNatPlan c).2.map hostfwd)

/-! ## Concrete sample configurations used to instantiate the theorems -/

/-- A sample user list: one administrator, one plain user. -/
def sampleUsers : List User :=
  [{ username := "alice", password := "Secret1!", group := some "Administrators" },
   { username := "bob", password := "Secret2!" }]

/-- A well-formed sample configuration: NAT mode, no explicit port-forward
table, remote desktop absent (hence disabled). -/
def cfgSample : Config :=
  { vm := { name := "WinServer2022", work_dir := "/root/vm_deployments" },
    windows :=
      { users := some sampleUsers,
        web_project := some { source_folder := some "/root/webproject", name := some "MyWeb" },
        administrator_password := some "Admin123!",
        computer_name := some "WIN-IIS-SERVER" } }

/-- `cfgSample` with a different `vm` section but an identical `windows` section. -/
def cfgSampleAltVm : Config :=
  { cfgSample with vm := { name := "OtherVm", work_dir := "/tmp/other" } }

/-- `cfgSample` with the web-project `source_folder` key removed. -/
def cfgNoSourceFolder : Config :=
  { cfgSample with
      windows := { cfgSample.windows with
        web_project := some { source_folder := none, name := some "MyWeb" } } }

/-- `cfgSample` with an unrecognized edition key. -/
def cfgUnknownEdition : Config :=
  { cfgSample with
      windows := { cfgSample.windows with windows_edition := some "ultimate" } }

/-- `cfgSample` with remote desktop enabled on a non-default host port. -/
def cfgRdpCustomPort : Config :=
  { cfgSample with
      vm := { cfgSample.vm with
        rdp := some { enabled := some true, host_port := some 13389 } } }

/-- A configuration with an explicit port-forward table and remote desktop
enabled (the situation of claim C3). -/
def natAliasConfig : Config :=
  { vm := { name := "WinServer2022", work_dir := "/root/vm_deployments",
            port_forwards := some [{ host := 8080, guest := 80 }],
            rdp := some { enabled := some true } },
    windows := {} }

/-! ## Theorems -/

/-- C1: the claim says the loopback mount of the floppy image is always
released (unmounted) on every exit path of the media-assembly step, including
when the copy of the answer file onto the mounted volume fails, with the
unmount happening before the temporary mount-point directory is removed. The
code violates this: `sudo umount` sits inside the `try` body (line 603), not
in the `finally` clause, so when the copy fails the umount command is never
invoked at all, while the `finally` clause still removes the mount-point
directory (of the still-mounted volume) before the error is surfaced. This
theorem evaluates the embedded control flow at the failing input (mount
succeeds, copy fails): no umount event occurs, yet the mount-point directory
is removed and the copy failure is surfaced. -/
theorem create_config_iso_copy_failure_skips_umount :
    floppySection true false true =
      ([FloppyEvent.run FloppyStep.mount, FloppyEvent.fail FloppyStep.copy,
        FloppyEvent.rmtreeMountPoint, FloppyEvent.rmtreeFloppyDir],
       some FloppyStep.copy) ∧
    FloppyEvent.run FloppyStep.umount ∉ (floppySection true false true).1 ∧
    FloppyEvent.fail FloppyStep.umount ∉ (floppySection true false true).1 ∧
    FloppyEvent.rmtreeMountPoint ∈ (floppySection true false true).1 := by
  decide

/-- C3: the claim says the configuration tree is read-only after load, and in
particular that building the launch plan in NAT mode with remote desktop
enabled does not modify the configuration's port-forward table. The code
violates this: `config['vm'].get('port_forwards', ...)` returns the very list
object stored in the configuration, and `port_forwards.append(...)` then
mutates it in place whenever the key is present. This theorem evaluates the
embedded step at such a configuration: the configuration after the step has
the remote-desktop pair appended to its own table, so it differs from the
configuration before the step. -/
theorem start_vm_nat_rdp_mutates_config :
    rdpEnabled natAliasConfig = true ∧
    natAliasConfig.vm.port_forwards = some [{ host := 8080, guest := 80 }] ∧
    (startVmNatPlan natAliasConfig).1.vm.port_forwards =
      some [{ host := 8080, guest := 80 }, { host := 3389, guest := 3389 }] ∧
    (startVmNatPlan natAliasConfig).1 ≠ natAliasConfig := by
  refine ⟨rfl, rfl, rfl, fun hEq => ?_⟩
  exact absurd (congrArg (fun c : Config => c.vm.port_forwards) hEq) (by decide)

/-- C6: disk provisioning is idempotent. If a file already exists at the
derived disk path, `create_disk_image` returns that path unchanged with zero
invocations of the external creation tool (and performs no size or format
re-validation: the existing-file branch inspects nothing but existence);
running the step twice from any starting state invokes the tool at most once
in total, and the second run returns the same path with zero invocations. -/
theorem create_disk_image_idempotent (fs : List String) (c : Config) :
    (diskPath c ∈ fs → create_disk_image fs c = (fs, diskPath c, 0)) ∧
    (create_disk_image (create_disk_image fs c).1 c).2.1 = (create_disk_image fs c).2.1 ∧
    (create_disk_image (create_disk_image fs c).1 c).2.2 = 0 ∧
    (create_disk_image fs c).2.2 + (create_disk_image (create_disk_image fs c).1 c).2.2 ≤ 1 := by
  by_cases h : diskPath c ∈ fs <;> simp [create_disk_image, h]

/-- Witness for C6 at a concrete state: the disk of `cfgSample` already
exists, so the call returns it with zero tool invocations; starting from an
empty state, the second of two consecutive calls invokes the tool zero times. -/
theorem create_disk_image_idempotent_witness :
    create_disk_image [diskPath cfgSample] cfgSample =
      ([diskPath cfgSample], diskPath cfgSample, 0) ∧
    (create_disk_image (create_disk_image [] cfgSample).1 cfgSample).2.2 = 0 :=
  ⟨(create_disk_image_idempotent [diskPath cfgSample] cfgSample).1 (by simp),
   (create_disk_image_idempotent [] cfgSample).2.2.1⟩

/-- C7: for every availability oracle under which two (or more) required
tools are absent, `check_dependencies` fails with a single report that
carries every missing tool name — in particular both given absent tools —
and exit code 1, rather than reporting only the first one encountered. -/
theorem check_dependencies_collects_all (which : String → Bool)
    (t₁ t₂ : String) (h₁ : t₁ ∈ required_commands) (h₂ : t₂ ∈ required_commands)
    (_hne : t₁ ≠ t₂) (hw₁ : which t₁ = false) (hw₂ : which t₂ = false) :
    check_dependencies which =
      Except.error { missing := required_commands.filter (fun cmd => !(which cmd)),
                     exitCode := 1 } ∧
    t₁ ∈ required_commands.filter (fun cmd => !(which cmd)) ∧
    t₂ ∈ required_commands.filter (fun cmd => !(which cmd)) ∧
    ∀ t ∈ required_commands, which t = false →
      t ∈ required_commands.filter (fun cmd => !(which cmd)) := by
  have hmem : ∀ t ∈ required_commands, which t = false →
      t ∈ required_commands.filter (fun cmd => !(which cmd)) := by
    intro t ht hw
    exact List.mem_filter.mpr ⟨ht, by simp [hw]⟩
  have ht₁ := hmem t₁ h₁ hw₁
  have hfe : (required_commands.filter (fun cmd => !(which cmd))).isEmpty = false := by
    cases hc : (required_commands.filter (fun cmd => !(which cmd))).isEmpty
    · rfl
    · rw [List.isEmpty_iff.mp hc] at ht₁
      exact absurd ht₁ (List.not_mem_nil t₁)
  refine ⟨?_, ht₁, hmem t₂ h₂ hw₂, hmem⟩
  unfold check_dependencies
  simp [hfe]

/-- Witness for C7: with only `qemu-img` resolvable, the check fails once
with both `qemu-system-x86_64` and `mkisofs` in the same report. -/
theorem check_dependencies_collects_all_witness :
    check_dependencies (fun s => s == "qemu-img") =
      Except.error { missing := ["qemu-system-x86_64", "mkisofs"], exitCode := 1 } := by
  have h := check_dependencies_collects_all (fun s => s == "qemu-img")
    "qemu-system-x86_64" "mkisofs" (by decide) (by decide) (by decide) (by decide) (by decide)
  exact h.1

/-- C10: for every configuration in NAT mode whose port-forward table is
absent, the launch planner uses the built-in default table `[{host 8080,
guest 80}]`: the planned rules are exactly one 8080-to-80 rule followed by
the remote-desktop entry (if and only if enabled), each entry rendering one
`hostfwd` clause; the configuration itself is left unchanged in this case. -/
theorem start_vm_nat_default_port_forward (c : Config)
    (h : c.vm.port_forwards = none) :
    (startVmNatPlan c).2 = { host := 8080, guest := 80 } :: rdpForwards c ∧
    (startVmNatPlan c).1 = c ∧
    hostfwd { host := 8080, guest := 80 } = "hostfwd=tcp::8080-:80" := by
  refine ⟨?_, ?_, rfl⟩ <;> simp [startVmNatPlan, h]

/-- Witness for C10 at `cfgSample` (no port-forward table, remote desktop
absent): the planned rules are exactly the single default rule. -/
theorem start_vm_nat_default_port_forward_witness :
    (startVmNatPlan cfgSample).2 = { host := 8080, guest := 80 } :: rdpForwards cfgSample ∧
    (startVmNatPlan cfgSample).1 = cfgSample :=
  ⟨(start_vm_nat_default_port_forward cfgSample rfl).1,
   (start_vm_nat_default_port_forward cfgSample rfl).2.1⟩

/-- C5: answer-file rendering is deterministic — it is a pure function of the
configuration (in fact of its `windows` section alone, the only part
`generate_autounattend_xml` reads), embedding no timestamps or random values,
so rendering twice from the identical configuration yields byte-identical
output. -/
theorem generate_autounattend_xml_deterministic (c₁ c₂ : Config)
    (h : c₁.windows = c₂.windows) :
    generate_autounattend_xml c₁ = generate_autounattend_xml c₂ := by
  unfold generate_autounattend_xml
  rw [h]

/-- Witness for C5: two configurations with identical `windows` sections (and
different `vm` sections) render byte-identical answer files. -/
theorem generate_autounattend_xml_deterministic_witness :
    generate_autounattend_xml cfgSample = generate_autounattend_xml cfgSampleAltVm :=
  generate_autounattend_xml_deterministic cfgSample cfgSampleAltVm rfl

/-- C8: for every edition key not in the fixed edition enumeration, the
answer-file render selects the same installer image name as when no edition
key is supplied at all — the documented default, the standard edition — and
raises no validation error: the whole rendered answer file equals the one
rendered with the key absent. -/
theorem edition_key_fallback (c : Config) (k : String)
    (hk : c.windows.windows_edition = some k)
    (hmiss : edition_mapping.find? (fun p => p.1 == k) = none) :
    imageNameOf (some k) = imageNameOf none ∧
    imageNameOf none = "Windows Server 2022 SERVERSTANDARD" ∧
    generate_autounattend_xml c =
      generate_autounattend_xml
        { c with windows := { c.windows with windows_edition := none } } := by
  have h1 : imageNameOf (some k) = imageNameOf none := by
    simp [imageNameOf, dictGetD, hmiss]
    rfl
  refine ⟨h1, rfl, ?_⟩
  show autounattendOfWindows c.windows =
    autounattendOfWindows { c.windows with windows_edition := none }
  cases hu : c.windows.users with
  | none => unfold autounattendOfWindows; simp [hu]
  | some users => unfold autounattendOfWindows; simp [hu, hk, h1]

/-- Witness for C8: the unrecognized key `"ultimate"` resolves to the same
image name as an absent key, and the full renders coincide. -/
theorem edition_key_fallback_witness :
    imageNameOf (some "ultimate") = imageNameOf none ∧
    generate_autounattend_xml cfgUnknownEdition =
      generate_autounattend_xml
        { cfgUnknownEdition with
            windows := { cfgUnknownEdition.windows with windows_edition := none } } :=
  ⟨(edition_key_fallback cfgUnknownEdition "ultimate" rfl (by decide)).1,
   (edition_key_fallback cfgUnknownEdition "ultimate" rfl (by decide)).2.2⟩

/-- C9: the rendered answer file contains exactly one LocalAccount entry per
configured user, in configuration order: the accumulated `users_xml` is the
concatenation of the per-user fragments, the fragment list has the same
length as the user list, and its i-th element is the fragment of the i-th
user. -/
theorem autounattend_one_account_per_user (users : List User) (i : Nat) :
    usersXml users = String.join (users.map localAccountXml) ∧
    (users.map localAccountXml).length = users.length ∧
    (users.map localAccountXml)[i]? = users[i]?.map localAccountXml := by
  refine ⟨?_, List.length_map _ _, List.getElem?_map _ _ _⟩
  simp [usersXml, String.join, List.foldl_map]

/-- C2: rendering never fails on a well-formed configuration (all required
keys present), and a required key absent with no default — here
`windows.web_project.source_folder` — surfaces as a `ConfigError` naming that
key, raised by the setup-script renderer (the first renderer that needs the
key) and not earlier: the answer-file renderer, which precedes it in
`create_config_iso`, still succeeds on such a configuration (and
`__init__` reads only `vm.name` and `vm.work_dir`, never that key). -/
theorem render_lazy_config_validation :
    (∀ c : Config, c.windows.users.isSome = true → renderOk (sourceFolder? c) = true →
        renderOk (generate_autounattend_xml c) = true ∧
        renderOk (generate_setup_script c) = true) ∧
    (∀ c : Config, ∀ wp : WebProject,
        c.windows.web_project = some wp → wp.source_folder = none →
        generate_setup_script c = Except.error (ConfigError.missingKey "source_folder") ∧
        (c.windows.users.isSome = true →
          renderOk (generate_autounattend_xml c) = true)) := by
  constructor
  · intro c hu hs
    obtain ⟨users, husers⟩ := Option.isSome_iff_exists.mp hu
    constructor
    · simp [generate_autounattend_xml, autounattendOfWindows, husers, renderOk]
    · unfold generate_setup_script
      cases hsf : sourceFolder? c with
      | error e => rw [hsf] at hs; simp [renderOk] at hs
      | ok s => simp [husers, renderOk]
  · intro c wp hwp hsrc
    have hsf : sourceFolder? c = Except.error (ConfigError.missingKey "source_folder") := by
      simp [sourceFolder?, hwp, hsrc]
    constructor
    · simp [generate_setup_script, hsf]
    · intro hu
      obtain ⟨users, husers⟩ := Option.isSome_iff_exists.mp hu
      simp [generate_autounattend_xml, autounattendOfWindows, husers, renderOk]

/-- Witness for C2: the well-formed `cfgSample` renders both artifacts
without error, while `cfgNoSourceFolder` (missing only `source_folder`) still
renders the answer file but fails the setup-script render with a
`ConfigError` naming `source_folder`. -/
theorem render_lazy_config_validation_witness :
    renderOk (generate_setup_script cfgSample) = true ∧
    generate_setup_script cfgNoSourceFolder =
      Except.error (ConfigError.missingKey "source_folder") ∧
    renderOk (generate_autounattend_xml cfgNoSourceFolder) = true :=
  ⟨(render_lazy_config_validation.1 cfgSample (by decide) (by decide)).2,
   (render_lazy_config_validation.2 cfgNoSourceFolder
      { source_folder := none, name := some "MyWeb" } rfl rfl).1,
   (render_lazy_config_validation.2 cfgNoSourceFolder
      { source_folder := none, name := some "MyWeb" } rfl rfl).2 (by decide)⟩

/-- Counterexample to C4 as stated: with remote desktop enabled on the
configured host port 13389, the rendered setup script contains zero firewall
rules for that configured remote-desktop port (the script's rule is the
hard-coded literal 3389), refuting "exactly one firewall rule for the
configured remote-desktop port". -/
theorem setup_script_rdp_port_counterexample :
    rdpEnabled cfgRdpCustomPort = true ∧
    rdpHostPort cfgRdpCustomPort = 13389 ∧
    ¬ (scriptStmts cfgRdpCustomPort).countP
        (isFirewallRuleOn (rdpHostPort cfgRdpCustomPort)) = 1 ∧
    (scriptStmts cfgRdpCustomPort).countP
        (isFirewallRuleOn (rdpHostPort cfgRdpCustomPort)) = 0 := by
  decide

/-- C4 (amended): for every renderable configuration, when remote desktop is
disabled the rendered setup script contains none of the remote-desktop-
enabling statements; when enabled it contains exactly one firewall rule for
the fixed remote-desktop guest port 3389 — not the configured host port,
which only affects NAT forwarding — in addition to exactly one rule for each
of the two fixed web-server ports 80 and 443. -/
theorem setup_script_firewall_rules (c : Config) (users : List User)
    (hu : c.windows.users = some users)
    (hs : renderOk (sourceFolder? c) = true) :
    generate_setup_script c = Except.ok (setupStmts c users) ∧
    (rdpEnabled c = false →
      (setupStmts c users).countP isRdpEnablingStmt = 0) ∧
    (rdpEnabled c = true →
      (setupStmts c users).countP (isFirewallRuleOn 3389) = 1 ∧
      (setupStmts c users).countP (isFirewallRuleOn 80) = 1 ∧
      (setupStmts c users).countP (isFirewallRuleOn 443) = 1) := by
  have hadmin : ∀ p : PSStmt → Bool,
      (∀ g m, p (PSStmt.addLocalGroupMember g m) = false) →
      (setupAdminBlock users).countP p = 0 := by
    intro p hp
    refine List.countP_eq_zero.mpr ?_
    intro s hsmem
    simp only [setupAdminBlock] at hsmem
    obtain ⟨u, _, rfl⟩ := List.mem_map.mp hsmem
    simp [hp]
  refine ⟨?_, ?_, ?_⟩
  · cases hsf : sourceFolder? c with
    | error e => rw [hsf] at hs; simp [renderOk] at hs
    | ok s => simp [generate_setup_script, hsf, hu]
  · intro hrdp
    have h0 := hadmin isRdpEnablingStmt (fun g m => rfl)
    simp [setupStmts, setupBaseBlock, setupWebBlock, setupTailBlock, setupRdpBlock,
          hrdp, List.countP_append, List.countP_cons, isRdpEnablingStmt, h0]
  · intro hrdp
    have h1 := hadmin (isFirewallRuleOn 3389) (fun g m => rfl)
    have h2 := hadmin (isFirewallRuleOn 80) (fun g m => rfl)
    have h3 := hadmin (isFirewallRuleOn 443) (fun g m => rfl)
    refine ⟨?_, ?_, ?_⟩ <;>
      simp [setupStmts, setupBaseBlock, setupWebBlock, setupTailBlock, setupRdpBlock,
            hrdp, List.countP_append, List.countP_cons, isFirewallRuleOn, h1, h2, h3]

/-- Witness for the amended C4: with remote desktop enabled
(`cfgRdpCustomPort`) the script has exactly one rule on port 3389; with it
disabled (`cfgSample`) the script has no remote-desktop-enabling statement. -/
theorem setup_script_firewall_rules_witness :
    (setupStmts cfgRdpCustomPort sampleUsers).countP (isFirewallRuleOn 3389) = 1 ∧
    (setupStmts cfgSample sampleUsers).countP isRdpEnablingStmt = 0 :=
  ⟨((setup_script_firewall_rules cfgRdpCustomPort sampleUsers rfl (by decide)).2.2 rfl).1,
   (setup_script_firewall_rules cfgSample sampleUsers rfl (by decide)).2.1 rfl⟩
